import Mathlib

/-!
Shallow embedding of the AI Document Analyzer (app.py + engine.py).

The program is a thin orchestration layer over a remote SDK: the remote
calls (client construction, file upload, file deletion, content
generation) and the secrets store are modelled as an `Env` of oracles,
each returning `Except String α` (an `.error e` models the Python call
raising an exception with message `e`).  Every embedded function returns,
next to its value, the list of observable `Event`s it performs, in
program order, so that claims about call ordering, call counts and
user-visible messages can be stated over the trace.

Streamlit session state (`st.session_state`) is the `SessionState`
structure; the `@st.cache_resource` decorators on `initialize_client`
and `upload_document` in engine.py are modelled as explicit cache-passing
wrappers (`initialize_client_cached`, `upload_document_cached`).
-/

namespace DocAnalyzer

/-- An authenticated remote-API client handle (opaque in the source;
modelled as a tagged value so distinct constructions are distinguishable). -/
structure Client where
  id : Nat
deriving DecidableEq, Repr

/-- A remote file handle as returned by the upload endpoint; the source
only ever uses its `name` field (`uploaded_file.name`). -/
structure FileHandle where
  name : String
deriving DecidableEq, Repr

/-- A Streamlit `UploadedFile`: a filename plus an in-memory byte blob
(`uploaded_file_obj.name`, `uploaded_file_obj.getbuffer()`). -/
structure UploadedFile where
  name : String
  content : List Nat
deriving DecidableEq, Repr

/-- Observable effects of the program, in program order. -/
inductive Event where
  | mkdirTemp
  | fsWrite (path : String)
  | remoteUpload (path : String)
  | fsRemove (path : String)
  | rmdirTemp
  | remoteDelete (name : String)
  | remoteGenerate (fileName prompt : String)
  | clientConstruct (key : String)
  | uiError (msg : String)
  | uiWarning (msg : String)
  | uiToast (msg : String)
  | uiInfo (msg : String)
deriving DecidableEq, Repr

/-- The environment: the secrets store and the behaviour of each remote
call.  `.error e` models the Python call raising an exception rendered
as `e`; `tempDirOthers` lists the other entries of the `temp_uploads`
directory, deciding `os.listdir(temp_dir)` after the temp file is removed. -/
structure Env where
  secrets : Option String
  clientCtor : String → Except String Client
  uploadResult : String → Except String FileHandle
  deleteResult : String → Except String Unit
  generateResult : String → String → Except String String
  tempDirOthers : List String

/-- One chat message, `{"role": ..., "content": ...}`. -/
structure Message where
  role : String
  content : String
deriving DecidableEq, Repr

/-- The Streamlit session state used by app.py: the current remote file
handle, the manual-cleanup flag, and the chat history.  `messages = none`
models the `"messages"` key being absent from `st.session_state`. -/
structure SessionState where
  uploaded_file_object : Option FileHandle
  cleanup_done : Bool
  messages : Option (List Message)
deriving DecidableEq, Repr

/-- engine.py `initialize_client` (the uncached body): read
`st.secrets["GEMINI_API_KEY"]`, treat a placeholder or empty key as a
`KeyError`, else construct the client, catching construction errors. -/
def initialize_client (env : Env) : (Option Client × Option String) × List Event :=
  match env.secrets with
  | none =>
      ((none, some ("🛑KEY not found in Streamlit secrets. " ++
        "Please create a .streamlit/secrets.toml file and add your key.")), [])
  | some api_key =>
      if api_key = "YOUR_ACTUAL_API_KEY" ∨ api_key = "" then
        ((none, some ("🛑KEY not found in Streamlit secrets. " ++
          "Please create a .streamlit/secrets.toml file and add your key.")), [])
      else
        match env.clientCtor api_key with
        | Except.ok c => ((some c, none), [Event.clientConstruct api_key])
        | Except.error e =>
            ((none, some ("Error initializing Gemini Client: " ++ e)),
             [Event.clientConstruct api_key])

/-- The `@st.cache_resource` decorator on `initialize_client`: the first
call runs the body and stores its result; later calls return the stored
result without re-running the body. -/
def initialize_client_cached (env : Env)
    (cache : Option (Option Client × Option String)) :
    (Option Client × Option String) × Option (Option Client × Option String) × List Event :=
  match cache with
  | some r => (r, some r, [])
  | none =>
      let (r, tr) := initialize_client env
      (r, some r, tr)

/-- The fixed temp directory `Path("temp_uploads")` of engine.py. -/
def temp_dir : String := "temp_uploads"

/-- `temp_file_path = temp_dir / file_name` in engine.py `upload_document`. -/
def temp_file_path (f : UploadedFile) : String := temp_dir ++ "/" ++ f.name

/-- engine.py `upload_document` (the uncached body): make the temp dir,
write the blob to `temp_uploads/<name>`, call the remote upload inside a
`try`, catch any error (reporting it and returning `None`), and in the
`finally` block remove the temp file and, if the directory is then
empty, the directory itself. -/
def upload_document (env : Env) (f : UploadedFile) :
    Option FileHandle × List Event :=
  let p := temp_file_path f
  let cleanup :=
    Event.fsRemove p ::
      (if env.tempDirOthers = [] then [Event.rmdirTemp] else [])
  match env.uploadResult p with
  | Except.ok h =>
      (some h, [Event.mkdirTemp, Event.fsWrite p, Event.remoteUpload p] ++ cleanup)
  | Except.error e =>
      (none,
       [Event.mkdirTemp, Event.fsWrite p, Event.remoteUpload p,
        Event.uiError ("Error during file upload: " ++ e)] ++ cleanup)

/-- The `@st.cache_resource` cache on `upload_document`, keyed by the
argument pair (client, uploaded file object); a cached value (even a
`none` from a failed upload) is returned without re-running the body. -/
structure UploadCache where
  entries : List ((Client × UploadedFile) × Option FileHandle)
deriving DecidableEq, Repr

/-- Cache lookup by argument equality. -/
def UploadCache.find (cache : UploadCache) (k : Client × UploadedFile) :
    Option (Option FileHandle) :=
  (cache.entries.find? (fun e => e.1 = k)).map (fun e => e.2)

/-- The empty `@st.cache_resource` cache. -/
def UploadCache.empty : UploadCache := ⟨[]⟩

/-- `upload_document` as called through `@st.cache_resource`. -/
def upload_document_cached (env : Env) (cache : UploadCache)
    (client : Client) (f : UploadedFile) :
    Option FileHandle × UploadCache × List Event :=
  match cache.find (client, f) with
  | some r => (r, cache, [])
  | none =>
      let (r, tr) := upload_document env f
      (r, ⟨((client, f), r) :: cache.entries⟩, tr)

/-- engine.py `process_document`: one `generate_content` call on the
fixed model with `[uploaded_file, prompt]`; any error is caught,
reported via `st.error`, and the fallback string is returned. -/
def process_document (env : Env) (h : FileHandle) (prompt : String) :
    String × List Event :=
  match env.generateResult h.name prompt with
  | Except.ok text => (text, [Event.remoteGenerate h.name prompt])
  | Except.error e =>
      ("Failed to get response from Gemini.",
       [Event.remoteGenerate h.name prompt,
        Event.uiError ("Error during content generation: " ++ e)])

/-- engine.py `delete_uploaded_file`: one `files.delete(name=...)` call
inside a `try`; success emits a toast, any error is caught and reported
with `st.warning`.  The first component is what propagates to the
caller: it is `Except.ok ()` on every path, because the `except` clause
catches every exception. -/
def delete_uploaded_file (env : Env) (h : FileHandle) :
    Except String Unit × List Event :=
  match env.deleteResult h.name with
  | Except.ok _ =>
      (Except.ok (),
       [Event.remoteDelete h.name,
        Event.uiToast ("Clean up complete. File " ++ h.name ++ " deleted.")])
  | Except.error e =>
      (Except.ok (),
       [Event.remoteDelete h.name,
        Event.uiWarning ("Failed to delete file " ++ h.name ++ ". Error: " ++ e)])

/-- The greeting message appended by `chat_with_document` when the
`"messages"` key is absent. -/
def greetingMessage : Message :=
  ⟨"assistant", "Document analysis ready! Ask me any question about the content."⟩

/-- The lazy history initialisation of app.py `chat_with_document`
(lines 22-26): only when the `"messages"` key is absent is it created
as `[]` and the greeting appended. -/
def ensure_messages (s : SessionState) : SessionState :=
  match s.messages with
  | none => { s with messages := some [greetingMessage] }
  | some _ => s

/-- app.py `chat_with_document`: early return with an info box when no
file handle is held; otherwise lazily initialise the history, render it,
and, when a prompt was submitted, append the user message, call
`process_document`, and append the assistant response. -/
def chat_with_document (env : Env) (s : SessionState)
    (promptInput : Option String) : SessionState × List Event :=
  match s.uploaded_file_object with
  | none =>
      (s, [Event.uiInfo "Upload a document in the sidebar to begin chatting."])
  | some h =>
      let s1 := ensure_messages s
      match promptInput with
      | none => (s1, [])
      | some prompt =>
          let msgs := s1.messages.getD []
          let resp := (process_document env h prompt).1
          ({ s1 with
              messages := some (msgs ++ [⟨"user", prompt⟩, ⟨"assistant", resp⟩]) },
           (process_document env h prompt).2)

/-- The combined process-level state threaded through the Process
Document handler: the session state plus the `@st.cache_resource`
cache of `upload_document`. -/
structure AppState where
  session : SessionState
  uploadCache : UploadCache
deriving Repr

/-- app.py lines 93-108, the "Process Document" button handler: if a
prior handle is held, call `delete_uploaded_file` on it; then call the
(cached) `upload_document`; only when it returns a handle, store it,
reset `messages` to the empty list, and clear `cleanup_done`. -/
def process_document_click (env : Env) (client : Client)
    (st : AppState) (f : UploadedFile) : AppState × List Event :=
  let dTr :=
    match st.session.uploaded_file_object with
    | some h => (delete_uploaded_file env h).2
    | none => []
  let (res, cache1, uTr) := upload_document_cached env st.uploadCache client f
  let session1 :=
    match res with
    | some h =>
        { uploaded_file_object := some h
          cleanup_done := false
          messages := some [] }
    | none => st.session
  ({ session := session1, uploadCache := cache1 }, dTr ++ uTr)

/-- app.py lines 115-123, the "Manually Delete File from API" button
handler: shown only when a handle is held and `cleanup_done` is false;
it deletes the remote file, clears the handle, sets `cleanup_done`, and
resets the history. -/
def manual_delete_click (env : Env) (s : SessionState) :
    SessionState × List Event :=
  match s.uploaded_file_object with
  | none => (s, [])
  | some h =>
      if s.cleanup_done then (s, [])
      else
        let tr := (delete_uploaded_file env h).2
        ({ uploaded_file_object := none
           cleanup_done := true
           messages := some [] }, tr)

/-- app.py lines 74-77: a fresh session gets `uploaded_file_object =
None` and `cleanup_done = False`; the `"messages"` key stays absent. -/
def init_session : SessionState :=
  { uploaded_file_object := none, cleanup_done := false, messages := none }

/-- An event is a remote delete call. -/
def isDeleteEvt : Event → Bool
  | Event.remoteDelete _ => true
  | _ => false

/-- An event is a remote upload call. -/
def isUploadEvt : Event → Bool
  | Event.remoteUpload _ => true
  | _ => false

/-- An event is a remote client-construction call. -/
def isConstructEvt : Event → Bool
  | Event.clientConstruct _ => true
  | _ => false

/-- The session invariant of claim C9: when the manual-cleanup flag is
set, no remote file handle is held. -/
def SessionInv (s : SessionState) : Prop :=
  s.cleanup_done = true → s.uploaded_file_object = none

instance (s : SessionState) : Decidable (SessionInv s) := by
  unfold SessionInv; infer_instance

/-- Index of the first event satisfying `p`, used to state ordering of
calls within a trace. -/
def firstIdx (p : Event → Bool) : List Event → Option Nat
  | [] => none
  | e :: tr => if p e then some 0 else (firstIdx p tr).map (· + 1)

/-- An event is the removal of the local file at path `p`. -/
def isRemoveOf (p : String) : Event → Bool
  | Event.fsRemove q => q == p
  | _ => false

/-- An event is a local write to path `p`. -/
def isWriteOf (p : String) : Event → Bool
  | Event.fsWrite q => q == p
  | _ => false

/-- A benign concrete environment used as base for witnesses. -/
def envBase : Env :=
  { secrets := some "k"
    clientCtor := fun _ => Except.ok ⟨0⟩
    uploadResult := fun _ => Except.ok ⟨"files/H2"⟩
    deleteResult := fun _ => Except.ok ()
    generateResult := fun _ _ => Except.ok "T1"
    tempDirOthers := [] }

/-- A concrete environment whose secrets store lacks the key. -/
def envNoKey : Env := { envBase with secrets := none }

/-- A concrete environment whose remote delete call raises. -/
def envDeleteFails : Env :=
  { envBase with deleteResult := fun _ => Except.error "404 not found" }

/-- A concrete environment whose remote generate call raises. -/
def envGenFails : Env :=
  { envBase with generateResult := fun _ _ => Except.error "boom" }

/-- A concrete environment whose remote upload call raises. -/
def envUploadFails : Env :=
  { envBase with uploadResult := fun _ => Except.error "rate limited" }

/-- Claim C4: whenever the secret key is absent, empty, or the known
placeholder value, `initialize_client` returns a null client together
with a non-empty error message. -/
theorem initialize_client_null_on_bad_key (env : Env)
    (h : env.secrets = none ∨ env.secrets = some "" ∨
         env.secrets = some "YOUR_ACTUAL_API_KEY") :
    (initialize_client env).1.1 = none ∧
    ∃ m, (initialize_client env).1.2 = some m ∧ m ≠ "" := by
  rcases h with h | h | h <;> simp [initialize_client, h]

/-- Witness for C4 at a concrete environment with no key configured. -/
theorem initialize_client_null_on_bad_key_witness :
    (initialize_client envNoKey).1.1 = none ∧
    ∃ m, (initialize_client envNoKey).1.2 = some m ∧ m ≠ "" :=
  initialize_client_null_on_bad_key envNoKey (Or.inl rfl)

/-- Claim C5: `delete_uploaded_file` never raises to its caller (its
result is `Except.ok ()` in every environment, including one where the
remote file is already absent), and any failure of the remote delete
call is caught and reported as a warning. -/
theorem delete_uploaded_file_never_raises (env : Env) (h : FileHandle) :
    (delete_uploaded_file env h).1 = Except.ok () ∧
    ∀ e, env.deleteResult h.name = Except.error e →
      Event.uiWarning ("Failed to delete file " ++ h.name ++ ". Error: " ++ e)
        ∈ (delete_uploaded_file env h).2 := by
  constructor
  · cases hd : env.deleteResult h.name <;> simp [delete_uploaded_file, hd]
  · intro e he
    simp [delete_uploaded_file, he]

/-- Witness for C5: deleting a stale handle in an environment where the
remote delete raises returns normally and emits the warning. -/
theorem delete_uploaded_file_never_raises_witness :
    (delete_uploaded_file envDeleteFails ⟨"files/old"⟩).1 = Except.ok () ∧
    Event.uiWarning ("Failed to delete file " ++ "files/old" ++ ". Error: " ++ "404 not found")
      ∈ (delete_uploaded_file envDeleteFails ⟨"files/old"⟩).2 :=
  ⟨(delete_uploaded_file_never_raises envDeleteFails ⟨"files/old"⟩).1,
   (delete_uploaded_file_never_raises envDeleteFails ⟨"files/old"⟩).2 "404 not found" rfl⟩

/-- Claim C8: `initialize_client` caches its result: the second call
(run with the cache produced by the first) returns the same value while
doing no work, every call on a populated cache returns the cached value
unchanged, and the client construction call runs at most once. -/
theorem initialize_client_cached_once (env : Env) :
    (initialize_client_cached env (initialize_client_cached env none).2.1).1
      = (initialize_client_cached env none).1 ∧
    (initialize_client_cached env (initialize_client_cached env none).2.1).2.2 = [] ∧
    ((initialize_client_cached env none).2.2.countP isConstructEvt
      + (initialize_client_cached env (initialize_client_cached env none).2.1).2.2.countP
          isConstructEvt) ≤ 1 ∧
    ∀ r, initialize_client_cached env (some r) = (r, some r, []) := by
  refine ⟨by simp [initialize_client_cached], by simp [initialize_client_cached], ?_,
    fun r => rfl⟩
  cases hs : env.secrets with
  | none => simp [initialize_client_cached, initialize_client, hs]
  | some k =>
    by_cases hk : k = "YOUR_ACTUAL_API_KEY" ∨ k = ""
    · simp [initialize_client_cached, initialize_client, hs, hk]
    · cases hc : env.clientCtor k <;>
        simp [initialize_client_cached, initialize_client, hs, hk, hc, isConstructEvt]

/-- Claim C2: in every invocation of `upload_document` the transient
file is removed after the upload attempt on both exit paths (remote
call returning a handle, or raising), and the containing temp directory
is removed exactly when it is empty afterwards. -/
theorem upload_document_removes_temp (env : Env) (f : UploadedFile) :
    ∃ i j,
      firstIdx isUploadEvt (upload_document env f).2 = some i ∧
      firstIdx (isRemoveOf (temp_file_path f)) (upload_document env f).2 = some j ∧
      i < j ∧
      (Event.rmdirTemp ∈ (upload_document env f).2 ↔ env.tempDirOthers = []) := by
  cases hu : env.uploadResult (temp_file_path f) with
  | ok h =>
      refine ⟨2, 3, ?_, ?_, by decide, ?_⟩ <;>
        by_cases ho : env.tempDirOthers = [] <;>
        simp [upload_document, hu, ho, firstIdx, isUploadEvt, isRemoveOf]
  | error e =>
      refine ⟨2, 4, ?_, ?_, by decide, ?_⟩ <;>
        by_cases ho : env.tempDirOthers = [] <;>
        simp [upload_document, hu, ho, firstIdx, isUploadEvt, isRemoveOf]

/-- Claim C3 counterexample: with a raising generate call the code
returns the string "Failed to get response from Gemini.", which is not
the literal fallback string "Failed to get response" the claim names. -/
theorem process_document_fallback_cex :
    (process_document envGenFails ⟨"files/H1"⟩ "summarize").1
        = "Failed to get response from Gemini." ∧
    ¬ (process_document envGenFails ⟨"files/H1"⟩ "summarize").1
        = "Failed to get response" := by
  decide

/-- Claim C3 (amended): any error of the remote generate call is caught
and reported as a user-visible error message, the fixed fallback string
"Failed to get response from Gemini." is returned instead of
propagating, and the chat turn appends the user prompt and that
fallback string (never a null entry) to the message history. -/
theorem process_document_fallback (env : Env) (h : FileHandle)
    (p e : String) (hg : env.generateResult h.name p = Except.error e) :
    (process_document env h p).1 = "Failed to get response from Gemini." ∧
    Event.uiError ("Error during content generation: " ++ e)
      ∈ (process_document env h p).2 ∧
    ∀ s : SessionState, s.uploaded_file_object = some h →
      (chat_with_document env s (some p)).1.messages =
        some ((ensure_messages s).messages.getD [] ++
          [⟨"user", p⟩, ⟨"assistant", "Failed to get response from Gemini."⟩]) := by
  refine ⟨by simp [process_document, hg], by simp [process_document, hg], ?_⟩
  intro s hs
  simp [chat_with_document, hs, process_document, hg]

/-- Witness for the amended C3 at a concrete failing environment. -/
theorem process_document_fallback_witness :
    (process_document envGenFails ⟨"files/H1"⟩ "q").1
      = "Failed to get response from Gemini." :=
  (process_document_fallback envGenFails ⟨"files/H1"⟩ "q" "boom" rfl).1

/-- Claim C7 counterexample: two distinct invocations of
`upload_document` carrying the same filename both write to the same
transient path "temp_uploads/report.pdf": the transient location is
keyed by the filename alone, not uniquely named per invocation. -/
theorem upload_document_same_path_cex :
    (⟨"report.pdf", [1]⟩ : UploadedFile) ≠ ⟨"report.pdf", [2]⟩ ∧
    temp_file_path ⟨"report.pdf", [1]⟩ = temp_file_path ⟨"report.pdf", [2]⟩ ∧
    Event.fsWrite "temp_uploads/report.pdf"
      ∈ (upload_document envBase ⟨"report.pdf", [1]⟩).2 ∧
    Event.fsWrite "temp_uploads/report.pdf"
      ∈ (upload_document envBase ⟨"report.pdf", [2]⟩).2 := by
  decide

/-- Claim C7 (amended): every invocation persists the blob to the
deterministic transient path `temp_uploads/<filename>` before the
remote upload call; invocations with distinct filenames use distinct
paths, but invocations sharing a filename write to the same path. -/
theorem upload_document_write_before_upload (env : Env) (f g : UploadedFile)
    (hfg : f.name ≠ g.name) :
    temp_file_path f = temp_dir ++ "/" ++ f.name ∧
    (∃ i j,
      firstIdx (isWriteOf (temp_file_path f)) (upload_document env f).2 = some i ∧
      firstIdx isUploadEvt (upload_document env f).2 = some j ∧ i < j) ∧
    temp_file_path f ≠ temp_file_path g := by
  refine ⟨rfl, ?_, ?_⟩
  · cases hu : env.uploadResult (temp_file_path f) with
    | ok h =>
        exact ⟨1, 2, by simp [upload_document, hu, firstIdx, isUploadEvt, isWriteOf],
          by simp [upload_document, hu, firstIdx, isUploadEvt, isWriteOf], by decide⟩
    | error e =>
        exact ⟨1, 2, by simp [upload_document, hu, firstIdx, isUploadEvt, isWriteOf],
          by simp [upload_document, hu, firstIdx, isUploadEvt, isWriteOf], by decide⟩
  · intro hEq
    apply hfg
    apply String.ext
    have hd := congrArg String.data hEq
    simp only [temp_file_path, String.data_append] at hd
    exact List.append_cancel_left hd

/-- Witness for the amended C7 on two concretely distinct filenames. -/
theorem upload_document_write_before_upload_witness :
    temp_file_path ⟨"a.pdf", [1]⟩ = temp_dir ++ "/" ++ "a.pdf" ∧
    (∃ i j,
      firstIdx (isWriteOf (temp_file_path ⟨"a.pdf", [1]⟩))
        (upload_document envBase ⟨"a.pdf", [1]⟩).2 = some i ∧
      firstIdx isUploadEvt (upload_document envBase ⟨"a.pdf", [1]⟩).2 = some j ∧
      i < j) ∧
    temp_file_path (⟨"a.pdf", [1]⟩ : UploadedFile) ≠ temp_file_path ⟨"b.pdf", [1]⟩ :=
  upload_document_write_before_upload envBase ⟨"a.pdf", [1]⟩ ⟨"b.pdf", [1]⟩ (by decide)

/-- A session already holding a remote handle, as left by a prior
successful upload (used by concrete witnesses). -/
def staleSession : SessionState :=
  { uploaded_file_object := some ⟨"files/H1"⟩
    cleanup_done := false
    messages := some [greetingMessage] }

/-- Claim C1: when a handle is already active, the Process Document
handler performs exactly one remote deletion call — for the prior
handle — and performs it before the new remote upload call. -/
theorem click_deletes_prior_before_upload (env : Env) (client : Client)
    (st : AppState) (f : UploadedFile) (hprev : FileHandle)
    (h1 : st.session.uploaded_file_object = some hprev)
    (h2 : st.uploadCache.find (client, f) = none) :
    (process_document_click env client st f).2.filter isDeleteEvt
        = [Event.remoteDelete hprev.name] ∧
    ∃ i j,
      firstIdx isDeleteEvt (process_document_click env client st f).2 = some i ∧
      firstIdx isUploadEvt (process_document_click env client st f).2 = some j ∧
      i < j := by
  cases hd : env.deleteResult hprev.name <;>
  cases hu : env.uploadResult (temp_file_path f) <;>
  by_cases ho : env.tempDirOthers = [] <;>
  exact ⟨by simp [process_document_click, upload_document_cached, upload_document,
           delete_uploaded_file, h1, h2, hd, hu, ho, isDeleteEvt],
    0, 4,
    by simp [process_document_click, upload_document_cached, upload_document,
           delete_uploaded_file, h1, h2, hd, hu, ho, firstIdx, isDeleteEvt, isUploadEvt],
    by simp [process_document_click, upload_document_cached, upload_document,
           delete_uploaded_file, h1, h2, hd, hu, ho, firstIdx, isDeleteEvt, isUploadEvt],
    by decide⟩

/-- Witness for C1: a concrete session holding handle "files/H1"
processes a new document. -/
theorem click_deletes_prior_before_upload_witness :
    (process_document_click envBase ⟨0⟩ ⟨staleSession, UploadCache.empty⟩
        ⟨"report2.pdf", [1]⟩).2.filter isDeleteEvt
      = [Event.remoteDelete "files/H1"] ∧
    ∃ i j,
      firstIdx isDeleteEvt (process_document_click envBase ⟨0⟩
        ⟨staleSession, UploadCache.empty⟩ ⟨"report2.pdf", [1]⟩).2 = some i ∧
      firstIdx isUploadEvt (process_document_click envBase ⟨0⟩
        ⟨staleSession, UploadCache.empty⟩ ⟨"report2.pdf", [1]⟩).2 = some j ∧
      i < j :=
  click_deletes_prior_before_upload envBase ⟨0⟩ ⟨staleSession, UploadCache.empty⟩
    ⟨"report2.pdf", [1]⟩ ⟨"files/H1"⟩ rfl rfl

/-- The session state produced by processing "report2.pdf" from a fresh
session in the benign environment (C6 scenario). -/
def stateAfterUpload : AppState :=
  (process_document_click envBase ⟨0⟩ ⟨init_session, UploadCache.empty⟩
    ⟨"report2.pdf", [1]⟩).1

/-- Claim C6 counterexample: after the successful upload the stored
history is the empty list and the next chat render shows no messages at
all — not the assistant greeting: the handler stores an (empty)
`messages` list, so the lazy greeting initialisation, which fires only
when the key is absent, is skipped. -/
theorem upload_resets_history_cex :
    (chat_with_document envBase stateAfterUpload.session none).1.messages
        = some [] ∧
    ¬ ((chat_with_document envBase stateAfterUpload.session none).1.messages.getD []
        = [greetingMessage]) := by
  decide

/-- Claim C6 (amended): after every successful upload the message
history is reset to exactly the empty list, and the next chat render
leaves it empty — the greeting is appended only when the "messages" key
is absent from the session state, which is never the case after the
handler has run. -/
theorem upload_resets_history (env : Env) (client : Client)
    (st : AppState) (f : UploadedFile) (newH : FileHandle)
    (hup : (upload_document_cached env st.uploadCache client f).1 = some newH) :
    (process_document_click env client st f).1.session.messages = some [] ∧
    (chat_with_document env (process_document_click env client st f).1.session
        none).1.messages = some [] := by
  rcases hE : upload_document_cached env st.uploadCache client f with ⟨res, cache1, uTr⟩
  rw [hE] at hup
  simp only [Prod.fst] at hup
  subst hup
  have hsession : (process_document_click env client st f).1.session =
      { uploaded_file_object := some newH, cleanup_done := false,
        messages := some [] } := by
    simp [process_document_click, hE]
  rw [hsession]
  exact ⟨rfl, rfl⟩

/-- Witness for the amended C6 at the concrete C6 scenario. -/
theorem upload_resets_history_witness :
    (process_document_click envBase ⟨0⟩ ⟨init_session, UploadCache.empty⟩
        ⟨"report2.pdf", [1]⟩).1.session.messages = some [] ∧
    (chat_with_document envBase (process_document_click envBase ⟨0⟩
        ⟨init_session, UploadCache.empty⟩ ⟨"report2.pdf", [1]⟩).1.session
      none).1.messages = some [] :=
  upload_resets_history envBase ⟨0⟩ ⟨init_session, UploadCache.empty⟩
    ⟨"report2.pdf", [1]⟩ ⟨"files/H2"⟩ (by decide)

/-- `ensure_messages` touches only the history, never the handle or the
cleanup flag. -/
theorem ensure_messages_flags (s : SessionState) :
    (ensure_messages s).uploaded_file_object = s.uploaded_file_object ∧
    (ensure_messages s).cleanup_done = s.cleanup_done := by
  unfold ensure_messages
  cases s.messages <;> simp

/-- The chat handler touches only the history, never the handle or the
cleanup flag. -/
theorem chat_preserves_flags (env : Env) (s : SessionState) (p : Option String) :
    (chat_with_document env s p).1.uploaded_file_object = s.uploaded_file_object ∧
    (chat_with_document env s p).1.cleanup_done = s.cleanup_done := by
  cases hobj : s.uploaded_file_object with
  | none => simp [chat_with_document, hobj]
  | some h0 =>
      cases p with
      | none =>
          simpa [chat_with_document, hobj] using ensure_messages_flags s
      | some prompt =>
          have he := ensure_messages_flags s
          simp [chat_with_document, hobj]
          exact ⟨he.1.trans hobj, he.2⟩

/-- Claim C9: the implicit invariant "cleanup_done implies no handle
held" holds of a fresh session and is preserved by the Process Document
handler, the manual-delete handler, and the chat handler; the
manual-delete handler sets the flag only together with clearing the
handle, and a successful upload stores the new handle with the flag
cleared. -/
theorem session_inv_preserved (env : Env) (client : Client)
    (cache : UploadCache) (f : UploadedFile) (s : SessionState)
    (p : Option String) (hs : SessionInv s) :
    SessionInv init_session ∧
    SessionInv (process_document_click env client ⟨s, cache⟩ f).1.session ∧
    SessionInv (manual_delete_click env s).1 ∧
    SessionInv (chat_with_document env s p).1 ∧
    (∀ newH, (upload_document_cached env cache client f).1 = some newH →
      (process_document_click env client ⟨s, cache⟩ f).1.session.cleanup_done
        = false) ∧
    (∀ h0, s.uploaded_file_object = some h0 → s.cleanup_done = false →
      (manual_delete_click env s).1 =
        { uploaded_file_object := none, cleanup_done := true,
          messages := some [] }) := by
  have hmanual : SessionInv (manual_delete_click env s).1 := by
    cases hobj : s.uploaded_file_object with
    | none => simpa [manual_delete_click, hobj] using hs
    | some h0 =>
        by_cases hcd : s.cleanup_done = true
        · simpa [manual_delete_click, hobj, hcd] using hs
        · intro _
          simp [manual_delete_click, hobj, hcd]
  have hchat : SessionInv (chat_with_document env s p).1 := by
    intro hcd
    have hp := chat_preserves_flags env s p
    rw [hp.2] at hcd
    rw [hp.1]
    exact hs hcd
  have hmanual2 : ∀ h0, s.uploaded_file_object = some h0 → s.cleanup_done = false →
      (manual_delete_click env s).1 =
        { uploaded_file_object := none, cleanup_done := true,
          messages := some [] } := by
    intro h0 hobj hcd
    simp [manual_delete_click, hobj, hcd]
  rcases hE : upload_document_cached env cache client f with ⟨res, cache1, uTr⟩
  cases res with
  | some h =>
      have hclick : (process_document_click env client ⟨s, cache⟩ f).1.session =
          { uploaded_file_object := some h, cleanup_done := false,
            messages := some [] } := by
        simp [process_document_click, hE]
      refine ⟨fun _ => rfl, ?_, hmanual, hchat, ?_, hmanual2⟩
      · rw [hclick]; intro hcd; simp at hcd
      · intro newH _
        rw [hclick]
  | none =>
      have hclick : (process_document_click env client ⟨s, cache⟩ f).1.session = s := by
        simp [process_document_click, hE]
      refine ⟨fun _ => rfl, ?_, hmanual, hchat, ?_, hmanual2⟩
      · rw [hclick]; exact hs
      · intro newH hres
        simp at hres

/-- Witness for C9 at the fresh session in the benign environment. -/
theorem session_inv_preserved_witness :
    SessionInv init_session ∧
    SessionInv (process_document_click envBase ⟨0⟩
      ⟨init_session, UploadCache.empty⟩ ⟨"a.pdf", [1]⟩).1.session ∧
    SessionInv (manual_delete_click envBase init_session).1 ∧
    SessionInv (chat_with_document envBase init_session none).1 ∧
    (∀ newH, (upload_document_cached envBase UploadCache.empty ⟨0⟩
        ⟨"a.pdf", [1]⟩).1 = some newH →
      (process_document_click envBase ⟨0⟩ ⟨init_session, UploadCache.empty⟩
        ⟨"a.pdf", [1]⟩).1.session.cleanup_done = false) ∧
    (∀ h0, init_session.uploaded_file_object = some h0 →
      init_session.cleanup_done = false →
      (manual_delete_click envBase init_session).1 =
        { uploaded_file_object := none, cleanup_done := true,
          messages := some [] }) :=
  session_inv_preserved envBase ⟨0⟩ UploadCache.empty ⟨"a.pdf", [1]⟩
    init_session none (fun _ => rfl)

/-- Claim C10: when the replacement upload fails after the prior
handle's deletion was attempted, the session state is left entirely
unchanged — the stale handle stays stored and the history is not
cleared — and a subsequent chat turn issues the generate call with that
stale handle. -/
theorem failed_replacement_keeps_stale_handle (env : Env) (client : Client)
    (st : AppState) (f : UploadedFile) (hprev : FileHandle) (e p : String)
    (h1 : st.session.uploaded_file_object = some hprev)
    (h2 : st.uploadCache.find (client, f) = none)
    (h3 : env.uploadResult (temp_file_path f) = Except.error e) :
    (process_document_click env client st f).1.session = st.session ∧
    Event.remoteGenerate hprev.name p ∈
      (chat_with_document env (process_document_click env client st f).1.session
        (some p)).2 := by
  have hsession : (process_document_click env client st f).1.session = st.session := by
    simp [process_document_click, upload_document_cached, upload_document, h2, h3]
  refine ⟨hsession, ?_⟩
  rw [hsession]
  cases hg : env.generateResult hprev.name p <;>
    simp [chat_with_document, h1, process_document, hg]

/-- Witness for C10: a concrete failing replacement upload over a
session holding "files/H1". -/
theorem failed_replacement_keeps_stale_handle_witness :
    (process_document_click envUploadFails ⟨0⟩ ⟨staleSession, UploadCache.empty⟩
        ⟨"report2.pdf", [1]⟩).1.session = staleSession ∧
    Event.remoteGenerate "files/H1" "summarize" ∈
      (chat_with_document envUploadFails
        (process_document_click envUploadFails ⟨0⟩
          ⟨staleSession, UploadCache.empty⟩ ⟨"report2.pdf", [1]⟩).1.session
        (some "summarize")).2 :=
  failed_replacement_keeps_stale_handle envUploadFails ⟨0⟩
    ⟨staleSession, UploadCache.empty⟩ ⟨"report2.pdf", [1]⟩ ⟨"files/H1"⟩
    "rate limited" "summarize" rfl rfl rfl

end DocAnalyzer
